import Mathlib

/-!
Verification development for the inventory/sales dashboard views
(`MonthlyReportCard.tsx`, `InventoryLogs.tsx`, and the enhanced-stats
variant of the monthly report card).

JavaScript numbers are modelled as `ℚ` (NaN as `none` in `Option ℚ`);
JavaScript strings as Lean `String` (character sequences); possibly-missing
JSON fields as `Option`; expressions that can throw a runtime `TypeError`
as `Except String`.
-/

set_option maxRecDepth 4000

/-- JavaScript `toFixed` rounding: the integer n minimizing the distance of
n / 10^d to the value, larger n on ties (round half up). -/
def jsRound (q : ℚ) : ℤ := ⌊q + 1/2⌋

/-- Pad a digit string with leading zeros up to width `d`. -/
def padZeros (d : Nat) (s : String) : String :=
  String.mk (List.replicate (d - s.length) '0') ++ s

/-- Render a rounded scaled integer `n` (the value times `10 ^ d`) with `d`
digits after the decimal point. -/
def renderFixed (d : Nat) (n : ℤ) : String :=
  (if n < 0 then "-" else "") ++
    (if d = 0 then Nat.repr n.natAbs
     else Nat.repr (n.natAbs / 10 ^ d) ++ "." ++ padZeros d (Nat.repr (n.natAbs % 10 ^ d)))

/-- Model of JavaScript `Number.prototype.toFixed(d)` on a rational value:
round `q * 10^d` to the nearest integer (half up) and render it with `d`
digits after the decimal point. -/
def toFixed (d : Nat) (q : ℚ) : String := renderFixed d (jsRound (q * 10 ^ d))

/-- Embedding of `formatNumber` from `MonthlyReportCard.tsx` (lines 42-55) and
`src/unnamed/part_000` (lines 30-43); `none` models a NaN input. -/
def formatNumber (value : Option ℚ) : String :=
  match value with
  | none => "0"
  | some num =>
    if num ≥ 10000000 then toFixed 2 (num / 10000000) ++ " Cr"
    else if num ≥ 100000 then toFixed 2 (num / 100000) ++ " Lac"
    else if num ≥ 1000 then toFixed 1 (num / 1000) ++ "K"
    else toFixed 0 num

/-- Spec-side definition of the Magnitude Formatter, written from the words of
claim C1 / spec section 4.1 (top-down threshold checks, first match wins),
to be compared with the source-side `formatNumber`. -/
def formatNumberSpec (value : Option ℚ) : String :=
  match value with
  | none => "0"
  | some v =>
    if v ≥ 10000000 then toFixed 2 (v / 10000000) ++ " Cr"
    else if v ≥ 100000 then toFixed 2 (v / 100000) ++ " Lac"
    else if v ≥ 1000 then toFixed 1 (v / 1000) ++ "K"
    else toFixed 0 v

/-- C1: the Magnitude Formatter checks its thresholds top-down in strictly
descending order with first match wins (it agrees everywhere with the
spec-side definition `formatNumberSpec` built from the claim's words), and it
realizes the claim's concrete examples: format(0)="0", format(999)="999",
format(1500)="1.5K", format(150000)="1.50 Lac", format(15000000)="1.50 Cr",
format(NaN)="0". -/
theorem formatNumber_correct :
    (∀ v : Option ℚ, formatNumber v = formatNumberSpec v) ∧
    formatNumber (some 0) = "0" ∧
    formatNumber (some 999) = "999" ∧
    formatNumber (some 1500) = "1.5K" ∧
    formatNumber (some 150000) = "1.50 Lac" ∧
    formatNumber (some 15000000) = "1.50 Cr" ∧
    formatNumber none = "0" := by
  refine ⟨fun v => by cases v <;> rfl, ?_, ?_, ?_, ?_, ?_, rfl⟩
  · simp only [formatNumber, toFixed]
    rw [if_neg (by norm_num), if_neg (by norm_num), if_neg (by norm_num)]
    rw [show jsRound ((0 : ℚ) * 10 ^ 0) = 0 from by unfold jsRound; norm_num]
    decide
  · simp only [formatNumber, toFixed]
    rw [if_neg (by norm_num), if_neg (by norm_num), if_neg (by norm_num)]
    rw [show jsRound ((999 : ℚ) * 10 ^ 0) = 999 from by unfold jsRound; norm_num]
    decide
  · simp only [formatNumber, toFixed]
    rw [if_neg (by norm_num), if_neg (by norm_num), if_pos (by norm_num)]
    rw [show jsRound ((1500 : ℚ) / 1000 * 10 ^ 1) = 15 from by unfold jsRound; norm_num]
    decide
  · simp only [formatNumber, toFixed]
    rw [if_neg (by norm_num), if_pos (by norm_num)]
    rw [show jsRound ((150000 : ℚ) / 100000 * 10 ^ 2) = 150 from by unfold jsRound; norm_num]
    decide
  · simp only [formatNumber, toFixed]
    rw [if_pos (by norm_num)]
    rw [show jsRound ((15000000 : ℚ) / 10000000 * 10 ^ 2) = 150 from by
      unfold jsRound; norm_num]
    decide

/-! ## Category Ranker (MonthlyReportCard.tsx lines 90-112 and 298-300;
enhanced-stats variant in src/unnamed/part_000 lines 72-93 and 277-279) -/

/-- Category aggregate of the legacy monthly-report shape
(`MonthlyReportCard.tsx` lines 11-16). -/
structure CategorySalesData where
  category : String
  totalQuantity : ℚ
  totalRevenue : ℚ
  productCount : ℚ
deriving DecidableEq

/-- Category aggregate of the enhanced-stats shape (`src/unnamed/part_000`
lines 11-15); fields guarded with `|| 0` in the source are `Option`. -/
structure CategoryPerformance where
  category : String
  revenue : Option ℚ
  unitsSold : Option ℚ
deriving DecidableEq

/-- Fixed ten-color palette `CHART_COLORS` from both report card variants. -/
def CHART_COLORS : List String :=
  ["#3b82f6", "#10b981", "#f59e0b", "#ef4444", "#8b5cf6",
   "#ec4899", "#06b6d4", "#84cc16", "#f97316", "#6366f1"]

/-- JavaScript `s.substring(0, n)`: the first `n` characters of `s`. -/
def jsSubstring (s : String) (n : Nat) : String := String.mk (s.data.take n)

/-- Display-name truncation used by both chart projections:
`cat.category.length > limit ? cat.category.substring(0, limit) + '...' :
cat.category`. -/
def truncateName (limit : Nat) (s : String) : String :=
  if s.length > limit then jsSubstring s limit ++ "..." else s

/-- JavaScript `x || d` on a possibly-missing number: the default is taken
when the value is absent or zero (both are falsy). -/
def jsOrQ (v : Option ℚ) (d : ℚ) : ℚ :=
  match v with
  | none => d
  | some x => if x = 0 then d else x

/-- Model of the stable JavaScript `Array.prototype.sort` with comparator
`(a, b) => key(b) - key(a)` (sort descending by `key`): a stable merge sort
under the total preorder `key b ≤ key a`. -/
def sortByKeyDesc (key : α → ℚ) (l : List α) : List α :=
  l.mergeSort (fun a b => decide (key b ≤ key a))

theorem sortByKeyDesc_le_trans (key : α → ℚ) :
    ∀ a b c : α, (fun a b => decide (key b ≤ key a)) a b →
      (fun a b => decide (key b ≤ key a)) b c →
      (fun a b => decide (key b ≤ key a)) a c := by
  intro a b c h1 h2
  simp only [decide_eq_true_eq] at *
  exact le_trans h2 h1

theorem sortByKeyDesc_le_total (key : α → ℚ) :
    ∀ a b : α, ((fun a b => decide (key b ≤ key a)) a b ||
      (fun a b => decide (key b ≤ key a)) b a) := by
  intro a b
  simp only [Bool.or_eq_true, decide_eq_true_eq]
  exact le_total _ _

theorem sortByKeyDesc_length (key : α → ℚ) (l : List α) :
    (sortByKeyDesc key l).length = l.length :=
  List.length_mergeSort l

theorem sortByKeyDesc_pairwise (key : α → ℚ) (l : List α) :
    (sortByKeyDesc key l).Pairwise (fun a b => key b ≤ key a) := by
  have h := List.sorted_mergeSort (sortByKeyDesc_le_trans key)
    (sortByKeyDesc_le_total key) l
  exact h.imp (fun hab => by simpa using hab)

theorem sortByKeyDesc_stable_pair (key : α → ℚ) (l : List α) (x y : α)
    (h : List.Sublist [x, y] l) (hk : key x = key y) :
    List.Sublist [x, y] (sortByKeyDesc key l) :=
  List.pair_sublist_mergeSort (sortByKeyDesc_le_trans key)
    (sortByKeyDesc_le_total key) (by simp [hk]) h

/-- Shared descending stable sort of the legacy aggregates:
`[...].sort((a, b) => b.totalQuantity - a.totalQuantity)`. -/
def sortCategories (cats : List CategorySalesData) : List CategorySalesData :=
  sortByKeyDesc (fun c => c.totalQuantity) cats

/-- Bar-chart row produced by `MonthlyReportCard.tsx` lines 94-101. -/
structure BarDatum where
  name : String
  fullName : String
  quantity : ℚ
  revenue : ℚ
  products : ℚ
  fill : String
deriving DecidableEq

/-- Mapping step of the bar-chart projection (truncate to 12 characters,
palette color by rank index mod palette size). -/
def mkBarDatum (index : Nat) (cat : CategorySalesData) : BarDatum :=
  ⟨truncateName 12 cat.category, cat.category, cat.totalQuantity,
   cat.totalRevenue, cat.productCount,
   CHART_COLORS.getD (index % CHART_COLORS.length) ""⟩

/-- Bar-chart projection: sort descending by quantity, take 8, decorate. -/
def barChartData (cats : List CategorySalesData) : List BarDatum :=
  ((sortCategories cats).take 8).enum.map (fun p => mkBarDatum p.1 p.2)

/-- Pie-chart row produced by `MonthlyReportCard.tsx` lines 107-112. -/
structure PieDatum where
  name : String
  value : ℚ
  revenue : ℚ
  color : String
deriving DecidableEq

/-- Mapping step of the pie-chart projection (truncate to 15 characters). -/
def mkPieDatum (index : Nat) (cat : CategorySalesData) : PieDatum :=
  ⟨truncateName 15 cat.category, cat.totalQuantity, cat.totalRevenue,
   CHART_COLORS.getD (index % CHART_COLORS.length) ""⟩

/-- Pie-chart projection: sort descending by quantity, take 6, decorate. -/
def pieChartData (cats : List CategorySalesData) : List PieDatum :=
  ((sortCategories cats).take 6).enum.map (fun p => mkPieDatum p.1 p.2)

/-- Table projection (`MonthlyReportCard.tsx` lines 298-300): same sort,
take 10, no truncation of the rendered aggregates. -/
def tableRows (cats : List CategorySalesData) : List CategorySalesData :=
  (sortCategories cats).take 10

/-- Shared descending stable sort of the enhanced-stats aggregates:
`[...].sort((a, b) => (b.unitsSold || 0) - (a.unitsSold || 0))`. -/
def sortPerformance (cats : List CategoryPerformance) : List CategoryPerformance :=
  sortByKeyDesc (fun c => jsOrQ c.unitsSold 0) cats

/-- Bar-chart row of the enhanced variant (`src/unnamed/part_000` 76-82). -/
structure PerfBarDatum where
  name : String
  fullName : String
  quantity : ℚ
  revenue : ℚ
  fill : String
deriving DecidableEq

/-- Mapping step of the enhanced bar-chart projection. -/
def mkPerfBarDatum (index : Nat) (cat : CategoryPerformance) : PerfBarDatum :=
  ⟨truncateName 12 cat.category, cat.category, jsOrQ cat.unitsSold 0,
   jsOrQ cat.revenue 0, CHART_COLORS.getD (index % CHART_COLORS.length) ""⟩

/-- Enhanced bar-chart projection (top 8 by units sold). -/
def perfBarChartData (cats : List CategoryPerformance) : List PerfBarDatum :=
  ((sortPerformance cats).take 8).enum.map (fun p => mkPerfBarDatum p.1 p.2)

/-- Pie-chart row of the enhanced variant (`src/unnamed/part_000` 88-93). -/
structure PerfPieDatum where
  name : String
  value : ℚ
  revenue : ℚ
  color : String
deriving DecidableEq

/-- Mapping step of the enhanced pie-chart projection. -/
def mkPerfPieDatum (index : Nat) (cat : CategoryPerformance) : PerfPieDatum :=
  ⟨truncateName 15 cat.category, jsOrQ cat.unitsSold 0, jsOrQ cat.revenue 0,
   CHART_COLORS.getD (index % CHART_COLORS.length) ""⟩

/-- Enhanced pie-chart projection (top 6 by units sold). -/
def perfPieChartData (cats : List CategoryPerformance) : List PerfPieDatum :=
  ((sortPerformance cats).take 6).enum.map (fun p => mkPerfPieDatum p.1 p.2)

/-- Enhanced table projection (top 10, untruncated aggregates). -/
def perfTableRows (cats : List CategoryPerformance) : List CategoryPerformance :=
  (sortPerformance cats).take 10

theorem enum_map_map {α β γ : Type _} (f : Nat → α → β) (g : β → γ) (h : α → γ)
    (hf : ∀ i a, g (f i a) = h a) (l : List α) :
    (l.enum.map (fun p => f p.1 p.2)).map g = l.map h := by
  rw [List.map_map]
  rw [show (g ∘ fun p : Nat × α => f p.1 p.2) = fun p : Nat × α => h p.2 from
    funext fun p => hf p.1 p.2]
  rw [show (fun p : Nat × α => h p.2) = h ∘ Prod.snd from rfl]
  rw [← List.map_map, List.enum_map_snd]

theorem enum_map_pairwise {α β : Type _} (f : Nat → α → β) (R : β → β → Prop)
    (S : α → α → Prop) (hf : ∀ i j a b, S a b → R (f i a) (f j b)) (l : List α)
    (hl : l.Pairwise S) : (l.enum.map (fun p => f p.1 p.2)).Pairwise R := by
  rw [List.pairwise_map]
  have he : l.enum.Pairwise (fun p q => S p.2 q.2) := by
    rw [← List.enum_map_snd l] at hl
    exact List.pairwise_map.1 hl
  exact he.imp (fun hs => hf _ _ _ _ hs)

/-- C2: every Category Ranker projection has length at most min(N, input
length) with N = 8 (bar), 6 (pie), 10 (table); every projection is sorted
descending by the volume field (totalQuantity in the legacy card, unitsSold
with missing-as-0 in the enhanced card) as the sole sort key; the shared sort
is stable (equal-volume entries keep their relative input order), and each
projection lists its entries in the order of that stable sort (the map
equations below), so equal-volume entries keep their input order inside every
projection as well. Input immutability is definitional in this pure
embedding: the source begins each projection by copying with a spread before
sorting. -/
theorem categoryRanker_correct (cats : List CategorySalesData)
    (perf : List CategoryPerformance) :
    ((barChartData cats).length ≤ min 8 cats.length ∧
     (pieChartData cats).length ≤ min 6 cats.length ∧
     (tableRows cats).length ≤ min 10 cats.length ∧
     (perfBarChartData perf).length ≤ min 8 perf.length ∧
     (perfPieChartData perf).length ≤ min 6 perf.length ∧
     (perfTableRows perf).length ≤ min 10 perf.length) ∧
    ((barChartData cats).Pairwise (fun a b => b.quantity ≤ a.quantity) ∧
     (pieChartData cats).Pairwise (fun a b => b.value ≤ a.value) ∧
     (tableRows cats).Pairwise (fun a b => b.totalQuantity ≤ a.totalQuantity) ∧
     (perfBarChartData perf).Pairwise (fun a b => b.quantity ≤ a.quantity) ∧
     (perfPieChartData perf).Pairwise (fun a b => b.value ≤ a.value) ∧
     (perfTableRows perf).Pairwise
       (fun a b => jsOrQ b.unitsSold 0 ≤ jsOrQ a.unitsSold 0)) ∧
    ((∀ x y, List.Sublist [x, y] cats → x.totalQuantity = y.totalQuantity →
        List.Sublist [x, y] (sortCategories cats)) ∧
     (∀ x y, List.Sublist [x, y] perf → jsOrQ x.unitsSold 0 = jsOrQ y.unitsSold 0 →
        List.Sublist [x, y] (sortPerformance perf))) ∧
    ((barChartData cats).map (fun e => e.fullName) =
        ((sortCategories cats).take 8).map (fun c => c.category) ∧
     (pieChartData cats).map (fun e => e.value) =
        ((sortCategories cats).take 6).map (fun c => c.totalQuantity) ∧
     tableRows cats = (sortCategories cats).take 10 ∧
     (perfBarChartData perf).map (fun e => e.fullName) =
        ((sortPerformance perf).take 8).map (fun c => c.category) ∧
     (perfPieChartData perf).map (fun e => e.value) =
        ((sortPerformance perf).take 6).map (fun c => jsOrQ c.unitsSold 0) ∧
     perfTableRows perf = (sortPerformance perf).take 10) := by
  refine ⟨⟨?_, ?_, ?_, ?_, ?_, ?_⟩, ⟨?_, ?_, ?_, ?_, ?_, ?_⟩, ⟨?_, ?_⟩,
    ?_, ?_, rfl, ?_, ?_, rfl⟩
  · simp [barChartData, sortCategories, sortByKeyDesc]
  · simp [pieChartData, sortCategories, sortByKeyDesc]
  · simp [tableRows, sortCategories, sortByKeyDesc]
  · simp [perfBarChartData, sortPerformance, sortByKeyDesc]
  · simp [perfPieChartData, sortPerformance, sortByKeyDesc]
  · simp [perfTableRows, sortPerformance, sortByKeyDesc]
  · exact enum_map_pairwise _ _ (fun a b => b.totalQuantity ≤ a.totalQuantity)
      (fun _ _ _ _ hs => hs) _
      ((sortByKeyDesc_pairwise _ cats).sublist (List.take_sublist 8 _))
  · exact enum_map_pairwise _ _ (fun a b => b.totalQuantity ≤ a.totalQuantity)
      (fun _ _ _ _ hs => hs) _
      ((sortByKeyDesc_pairwise _ cats).sublist (List.take_sublist 6 _))
  · exact (sortByKeyDesc_pairwise _ cats).sublist (List.take_sublist 10 _)
  · exact enum_map_pairwise _ _
      (fun a b => jsOrQ b.unitsSold 0 ≤ jsOrQ a.unitsSold 0)
      (fun _ _ _ _ hs => hs) _
      ((sortByKeyDesc_pairwise _ perf).sublist (List.take_sublist 8 _))
  · exact enum_map_pairwise _ _
      (fun a b => jsOrQ b.unitsSold 0 ≤ jsOrQ a.unitsSold 0)
      (fun _ _ _ _ hs => hs) _
      ((sortByKeyDesc_pairwise _ perf).sublist (List.take_sublist 6 _))
  · exact (sortByKeyDesc_pairwise _ perf).sublist (List.take_sublist 10 _)
  · exact fun x y h hk => sortByKeyDesc_stable_pair _ cats x y h hk
  · exact fun x y h hk => sortByKeyDesc_stable_pair _ perf x y h hk
  · exact enum_map_map mkBarDatum (fun e => e.fullName) (fun c => c.category)
      (fun _ _ => rfl) ((sortCategories cats).take 8)
  · exact enum_map_map mkPieDatum (fun e => e.value) (fun c => c.totalQuantity)
      (fun _ _ => rfl) ((sortCategories cats).take 6)
  · exact enum_map_map mkPerfBarDatum (fun e => e.fullName) (fun c => c.category)
      (fun _ _ => rfl) ((sortPerformance perf).take 8)
  · exact enum_map_map mkPerfPieDatum (fun e => e.value)
      (fun c => jsOrQ c.unitsSold 0) (fun _ _ => rfl)
      ((sortPerformance perf).take 6)

/-- Concrete aggregate with volume 5, used by witnesses. -/
def catW1 : CategorySalesData := ⟨"Alpha", 5, 100, 1⟩

/-- Second concrete aggregate with the same volume 5. -/
def catW2 : CategorySalesData := ⟨"Beta", 5, 200, 2⟩

/-- Witness for C2: the stability clause applied to a concrete pair of
equal-volume aggregates. -/
theorem categoryRanker_correct_witness :
    List.Sublist [catW1, catW2] (sortCategories [catW1, catW2]) :=
  ((categoryRanker_correct [catW1, catW2] []).2.2.1).1 catW1 catW2
    (List.Sublist.refl _) rfl

/-- Aggregate whose category name itself ends in the ellipsis marker while
being well within the 12-character limit. -/
def catEllipsis : CategorySalesData := ⟨"A...", 5, 100, 1⟩

/-- C3 counterexample: the claim's iff fails. For the input category named
"A..." (length 4, not exceeding the bar projection's limit 12), the
displayed name in the bar-chart projection is the untruncated "A...", which
does end with the ellipsis marker even though the original name's length
does not exceed the limit. -/
theorem truncation_iff_counterexample :
    (barChartData [catEllipsis]).map (fun e => e.name) = ["A..."] ∧
    List.IsSuffix "...".data "A...".data ∧
    ¬ ("A...".length > 12) := by
  refine ⟨?_, by decide, by decide⟩
  simp [barChartData, sortCategories, sortByKeyDesc, mkBarDatum, catEllipsis]
  decide

/-- C3 amended: a projection's displayed name is the first `limit` characters
of the original followed by "..." when the original's length exceeds the
limit (12 for the bar chart, 15 for the pie chart), and the unchanged
original otherwise; consequently the displayed name ends with the ellipsis
marker iff the original's length exceeds the limit OR the original name
itself already ends with the marker; the table projection applies no
truncation. -/
theorem truncation_correct_amended (limit : Nat) (s : String)
    (cats : List CategorySalesData) :
    (s.length > limit → truncateName limit s = jsSubstring s limit ++ "...") ∧
    (¬ s.length > limit → truncateName limit s = s) ∧
    (List.IsSuffix "...".data (truncateName limit s).data ↔
      (s.length > limit ∨ List.IsSuffix "...".data s.data)) ∧
    ((barChartData cats).map (fun e => e.name) =
      ((sortCategories cats).take 8).map (fun c => truncateName 12 c.category)) ∧
    ((pieChartData cats).map (fun e => e.name) =
      ((sortCategories cats).take 6).map (fun c => truncateName 15 c.category)) ∧
    tableRows cats = (sortCategories cats).take 10 := by
  refine ⟨fun h => by rw [truncateName, if_pos h],
    fun h => by rw [truncateName, if_neg h], ?_,
    enum_map_map mkBarDatum (fun e => e.name)
      (fun c => truncateName 12 c.category) (fun _ _ => rfl) _,
    enum_map_map mkPieDatum (fun e => e.name)
      (fun c => truncateName 15 c.category) (fun _ _ => rfl) _,
    rfl⟩
  by_cases h : s.length > limit
  · rw [truncateName, if_pos h]
    constructor
    · intro _; exact Or.inl h
    · intro _
      exact ⟨(jsSubstring s limit).data, (String.data_append _ _).symm⟩
  · rw [truncateName, if_neg h]
    simp [h]

/-- Witness for C3 (amended): a 16-character name is truncated to its first
12 characters plus the marker. -/
theorem truncation_correct_amended_witness :
    truncateName 12 "Abcdefghijklmnop" =
      jsSubstring "Abcdefghijklmnop" 12 ++ "..." :=
  (truncation_correct_amended 12 "Abcdefghijklmnop" []).1 (by decide)

/-! ## Log Type Classifier (InventoryLogs.tsx lines 123-156) -/

/-- Display descriptor returned by the Log Type Classifier: icon identity,
color classes, accent-border class. -/
structure LogTypeStyle where
  icon : String
  color : String
  bgColor : String
deriving DecidableEq

/-- Descriptor of the `sale` case. -/
def saleStyle : LogTypeStyle :=
  ⟨"ShoppingCart", "bg-red-100 text-red-700 dark:bg-red-900/30 dark:text-red-400",
   "border-l-red-500"⟩

/-- Descriptor of the `purchase` case. -/
def purchaseStyle : LogTypeStyle :=
  ⟨"Truck", "bg-green-100 text-green-700 dark:bg-green-900/30 dark:text-green-400",
   "border-l-green-500"⟩

/-- Descriptor of the `adjustment` case. -/
def adjustmentStyle : LogTypeStyle :=
  ⟨"RefreshCw", "bg-blue-100 text-blue-700 dark:bg-blue-900/30 dark:text-blue-400",
   "border-l-blue-500"⟩

/-- Descriptor of the `return` case. -/
def returnStyle : LogTypeStyle :=
  ⟨"RotateCcw", "bg-purple-100 text-purple-700 dark:bg-purple-900/30 dark:text-purple-400",
   "border-l-purple-500"⟩

/-- Generic default descriptor of the `default` case. -/
def defaultStyle : LogTypeStyle :=
  ⟨"Package", "bg-gray-100 text-gray-700 dark:bg-gray-900/30 dark:text-gray-400",
   "border-l-gray-500"⟩

/-- JavaScript `String.prototype.toLowerCase` modelled character-wise. -/
def jsToLower (s : String) : String := String.mk (s.data.map Char.toLower)

/-- Embedding of `getLogTypeStyles` (`InventoryLogs.tsx` lines 123-156):
a switch on `type.toLowerCase()` with a default case. -/
def getLogTypeStyles (type : String) : LogTypeStyle :=
  if jsToLower type = "sale" then saleStyle
  else if jsToLower type = "purchase" then purchaseStyle
  else if jsToLower type = "adjustment" then adjustmentStyle
  else if jsToLower type = "return" then returnStyle
  else defaultStyle

/-- JavaScript call semantics of `getLogTypeStyles(t)` when the argument may
be undefined (`none`): the receiver access `type.toLowerCase()` throws a
TypeError on undefined before any switch case is reached. -/
def getLogTypeStylesJS (type : Option String) : Except String LogTypeStyle :=
  match type with
  | none => Except.error "TypeError: type is undefined"
  | some t => Except.ok (getLogTypeStyles t)

/-- C4 counterexample: a missing/undefined type does not yield the generic
default descriptor — `type.toLowerCase()` throws a TypeError on undefined, so
the call fails instead of returning a descriptor. -/
theorem logTypeClassifier_undefined_counterexample :
    getLogTypeStylesJS none = Except.error "TypeError: type is undefined" ∧
    getLogTypeStylesJS none ≠ Except.ok defaultStyle := by
  exact ⟨rfl, fun h => Except.noConfusion h⟩

/-- C4 amended: for every string input the classifier is total and
case-insensitive: "SALE", "sale", "Sale" yield the identical sale
descriptor, the empty string and any unrecognized string yield the generic
default descriptor; an actually missing/undefined type is outside the
function's string domain and throws rather than returning the default. -/
theorem logTypeClassifier_amended (t : String) :
    getLogTypeStyles "SALE" = saleStyle ∧
    getLogTypeStyles "sale" = saleStyle ∧
    getLogTypeStyles "Sale" = saleStyle ∧
    getLogTypeStyles "" = defaultStyle ∧
    getLogTypeStylesJS (some t) = Except.ok (getLogTypeStyles t) ∧
    (jsToLower t ∉ (["sale", "purchase", "adjustment", "return"] : List String) →
      getLogTypeStyles t = defaultStyle) := by
  refine ⟨by decide, by decide, by decide, by decide, rfl, ?_⟩
  intro h
  simp only [List.mem_cons, List.not_mem_nil, or_false, not_or] at h
  obtain ⟨h1, h2, h3, h4⟩ := h
  simp [getLogTypeStyles, h1, h2, h3, h4]

/-- Witness for C4 (amended): the unrecognized string "restock" yields the
generic default descriptor. -/
theorem logTypeClassifier_amended_witness :
    getLogTypeStyles "restock" = defaultStyle :=
  (logTypeClassifier_amended "restock").2.2.2.2.2 (by decide)

/-! ## Monthly report card defensive derivation (MonthlyReportCard.tsx
lines 79-112 and 171) and enhanced-stats totals (src/unnamed/part_000
lines 68-70) -/

/-- Shape of the `data` object of the legacy monthly-report response; every
field is optional because a malformed response may omit any of them. The
date-display fields (month, year, daysElapsed, totalDays) are omitted: they
are wall-clock-derived presentation strings never consulted by the
derivations under verification. -/
structure MonthlyReportData where
  categories : Option (List CategorySalesData)
  totalQuantitySold : Option ℚ
  totalRevenue : Option ℚ
  totalProducts : Option ℚ
deriving DecidableEq

/-- Fallback report object built inline at `MonthlyReportCard.tsx` lines
79-88: all fields present, categories an empty array, totals zero. -/
def defaultReport : MonthlyReportData :=
  ⟨some [], some 0, some 0, some 0⟩

/-- Top-level legacy report response: its `data` field may be missing. -/
structure ReportResponse where
  data : Option MonthlyReportData
deriving DecidableEq

/-- Line 79: `reportData?.data || defaultReport`. -/
def reportOf (resp : Option ReportResponse) : MonthlyReportData :=
  (resp.bind (fun r => r.data)).getD defaultReport

/-- Line 171: `report.categories.length === 0` — the field access is NOT
guarded with `|| []` here (unlike lines 91, 104 and 298), so it throws a
TypeError when `categories` is absent. -/
def categoriesLengthCheck (resp : Option ReportResponse) : Except String Nat :=
  match (reportOf resp).categories with
  | none => Except.error "TypeError: cannot read length of undefined"
  | some cats => Except.ok cats.length

/-- Line 91: the bar-chart derivation guards with `report.categories || []`. -/
def reportBarChartData (resp : Option ReportResponse) : List BarDatum :=
  barChartData ((reportOf resp).categories.getD [])

/-- C5 is a code bug: a response whose `data` object is present but lacks the
`categories` list crashes the report card. The guarded derivation on line 91
falls back to an empty chart, and a fully missing response body falls back
to the default report (empty-state check succeeds with 0 categories), but
the unguarded `report.categories.length` on line 171 throws a TypeError
during render on the very shape the claim says is handled. -/
theorem malformedResponse_crash :
    categoriesLengthCheck (some ⟨some ⟨none, none, none, none⟩⟩) =
      Except.error "TypeError: cannot read length of undefined" ∧
    reportBarChartData (some ⟨some ⟨none, none, none, none⟩⟩) = [] ∧
    categoriesLengthCheck none = Except.ok 0 := by
  refine ⟨rfl, ?_, rfl⟩
  simp [reportBarChartData, reportOf, barChartData, sortCategories, sortByKeyDesc]

/-- Financial block of the enhanced-stats response. -/
structure FinancialData where
  monthRevenue : Option ℚ
deriving DecidableEq

/-- Performance block of the enhanced-stats response. -/
structure PerformanceBlock where
  categoryPerformance : Option (List CategoryPerformance)
deriving DecidableEq

/-- Payload of the enhanced-stats response. -/
structure EnhancedStats where
  performance : Option PerformanceBlock
  financial : Option FinancialData
deriving DecidableEq

/-- Top-level enhanced-stats response: its `data` field may be missing. -/
structure EnhancedResponse where
  data : Option EnhancedStats
deriving DecidableEq

/-- Line 68: `enhancedData?.data?.performance?.categoryPerformance || []`. -/
def categoryPerformanceOf (resp : Option EnhancedResponse) :
    List CategoryPerformance :=
  (((resp.bind (fun r => r.data)).bind (fun d => d.performance)).bind
    (fun p => p.categoryPerformance)).getD []

/-- Optional chain `enhancedData?.data?.financial?.monthRevenue`. -/
def monthRevenueOf (resp : Option EnhancedResponse) : Option ℚ :=
  ((resp.bind (fun r => r.data)).bind (fun d => d.financial)).bind
    (fun f => f.monthRevenue)

/-- Line 69: `categoryPerformance.reduce((sum, cat) => sum +
(cat.unitsSold || 0), 0)`. -/
def totalQuantitySold (cats : List CategoryPerformance) : ℚ :=
  cats.foldl (fun sum cat => sum + jsOrQ cat.unitsSold 0) 0

/-- Client-side fallback sum of line 70: `categoryPerformance.reduce((sum,
cat) => sum + (cat.revenue || 0), 0)`. -/
def clientRevenueSum (cats : List CategoryPerformance) : ℚ :=
  cats.foldl (fun sum cat => sum + jsOrQ cat.revenue 0) 0

/-- Line 70: `enhancedData?.data?.financial?.monthRevenue || clientSum`. -/
def totalRevenueOf (resp : Option EnhancedResponse) : ℚ :=
  jsOrQ (monthRevenueOf resp) (clientRevenueSum (categoryPerformanceOf resp))

theorem jsOrQ_getD_zero (v : Option ℚ) : jsOrQ v 0 = v.getD 0 := by
  cases v with
  | none => rfl
  | some x =>
    simp only [jsOrQ, Option.getD_some]
    split
    · exact (by assumption : x = 0).symm
    · rfl

theorem foldl_add_map_sum (f : α → ℚ) (l : List α) (a : ℚ) :
    l.foldl (fun s c => s + f c) a = a + (l.map f).sum := by
  induction l generalizing a with
  | nil => simp
  | cons x xs ih => simp [ih, add_assoc]

/-- Concrete enhanced-stats aggregate: 100 units, revenue 500. -/
def perfHardware : CategoryPerformance := ⟨"Hardware", some 500, some 100⟩

/-- Enhanced-stats response whose backend monthRevenue is present and 0. -/
def respZeroRevenue : Option EnhancedResponse :=
  some ⟨some ⟨some ⟨some [perfHardware]⟩, some ⟨some 0⟩⟩⟩

/-- C6 counterexample: the backend-supplied `financial.monthRevenue` is
present (value 0), yet the displayed total revenue is the client-computed
sum 500, not the backend figure — `||` treats the present value 0 as absent. -/
theorem totalRevenue_zero_counterexample :
    monthRevenueOf respZeroRevenue = some 0 ∧
    totalRevenueOf respZeroRevenue = 500 ∧
    (500 : ℚ) ≠ 0 := by
  refine ⟨rfl, ?_, by norm_num⟩
  simp [totalRevenueOf, monthRevenueOf, clientRevenueSum, categoryPerformanceOf,
    respZeroRevenue, perfHardware, jsOrQ]

/-- C6 amended: the displayed total units sold equals the sum of unitsSold
over the category list (missing counted as 0); the displayed total revenue
equals the backend-supplied `financial.monthRevenue` whenever that figure is
present AND non-zero (JavaScript `||` also falls back on a present zero),
and is the client-computed per-category revenue sum when the backend figure
is absent or zero. -/
theorem monthlyTotals_amended (resp : Option EnhancedResponse) :
    totalQuantitySold (categoryPerformanceOf resp) =
      ((categoryPerformanceOf resp).map (fun c => c.unitsSold.getD 0)).sum ∧
    (∀ r : ℚ, monthRevenueOf resp = some r → r ≠ 0 → totalRevenueOf resp = r) ∧
    (monthRevenueOf resp = none →
      totalRevenueOf resp = clientRevenueSum (categoryPerformanceOf resp)) ∧
    (monthRevenueOf resp = some 0 →
      totalRevenueOf resp = clientRevenueSum (categoryPerformanceOf resp)) ∧
    clientRevenueSum (categoryPerformanceOf resp) =
      ((categoryPerformanceOf resp).map (fun c => c.revenue.getD 0)).sum := by
  refine ⟨?_, ?_, ?_, ?_, ?_⟩
  · simp [totalQuantitySold, foldl_add_map_sum, jsOrQ_getD_zero]
  · intro r hr hne
    rw [totalRevenueOf, hr]
    simp [jsOrQ, hne]
  · intro h
    rw [totalRevenueOf, h]
    rfl
  · intro h
    rw [totalRevenueOf, h]
    simp [jsOrQ]
  · simp [clientRevenueSum, foldl_add_map_sum, jsOrQ_getD_zero]

/-- Enhanced-stats response whose backend monthRevenue is present and 250. -/
def respBackendRevenue : Option EnhancedResponse :=
  some ⟨some ⟨some ⟨some [perfHardware]⟩, some ⟨some 250⟩⟩⟩

/-- Witness for C6 (amended): with a present non-zero backend figure 250 the
displayed total revenue is 250, not the client sum. -/
theorem monthlyTotals_amended_witness :
    totalRevenueOf respBackendRevenue = 250 :=
  (monthlyTotals_amended respBackendRevenue).2.1 250 rfl (by norm_num)

/-! ## Inventory Log Viewer (InventoryLogs.tsx) -/

/-- Inventory log entry (`InventoryLogs.tsx` lines 18-33); the opaque `sale`
and `purchase` payloads are not consulted by the logic under verification. -/
structure InventoryLog where
  id : ℤ
  productId : ℤ
  productName : String
  productSku : String
  type : String
  quantity : ℤ
  balanceBefore : ℤ
  balanceAfter : ℤ
  reference : String
  reason : String
  condition : String
  createdAt : String
deriving DecidableEq

/-- Pagination state (`InventoryLogs.tsx` lines 44-49). -/
structure Pagination where
  currentPage : ℤ
  totalPages : ℤ
  totalItems : ℤ
  itemsPerPage : ℤ
deriving DecidableEq

/-- Fallback pagination object (`InventoryLogs.tsx` lines 87-92). -/
def defaultPagination : Pagination := ⟨1, 1, 0, 20⟩

/-- Inner `data` object of a logs response; both fields may be missing. -/
structure LogsData where
  logs : Option (List InventoryLog)
  pagination : Option Pagination
deriving DecidableEq

/-- Parsed JSON body of a logs response. -/
structure LogsBody where
  success : Bool
  data : Option LogsData
deriving DecidableEq

/-- A resolved HTTP response to `fetchLogs(productId, page)`: HTTP status,
the originating request key, and the parsed body (`none` when the body is
not valid JSON, in which case `response.json()` throws). -/
structure LogsResponse where
  productId : String
  page : ℤ
  status : ℤ
  body : Option LogsBody
deriving DecidableEq

/-- Outcome of one `fetchLogs` call: the fetch promise either rejects or
resolves to a response. -/
inductive FetchOutcome where
  | rejected
  | resolved (r : LogsResponse)
deriving DecidableEq

/-- Local view state of the Inventory Log Viewer relevant to log fetching. -/
structure ViewerState where
  selectedProductId : String
  logs : List InventoryLog
  pagination : Pagination
deriving DecidableEq

/-- State transition performed by `fetchLogs` (`InventoryLogs.tsx` lines
75-104) when one fetch completes: the new state, paired with whether the
destructive error toast fires. The HTTP status and the response's
originating productId/page are never consulted. A body whose `success` is
truthy but whose `data` object is missing makes `data.data.logs` throw
inside the try block, which the catch turns into a toast. -/
def applyFetchOutcome (s : ViewerState) (o : FetchOutcome) :
    ViewerState × Bool :=
  match o with
  | .rejected => (s, true)
  | .resolved r =>
    match r.body with
    | none => (s, true)
    | some body =>
      if body.success then
        match body.data with
        | none => (s, true)
        | some d =>
          (⟨s.selectedProductId, d.logs.getD [],
            d.pagination.getD defaultPagination⟩, false)
      else (s, false)

/-- C7 amended: the previously held logs and pagination are left unchanged
whenever the fetch rejects, the body fails to parse, the body's `success`
flag is falsy, or the `data` object is missing; a toast fires exactly when
an exception was thrown (rejection, parse failure, missing `data`), so a
`success=false` response produces no notification at all. The HTTP status is
never inspected, so failure detection covers only these cases. -/
theorem fetchLogs_error_atomicity_amended (s : ViewerState) (r : LogsResponse)
    (body : LogsBody) :
    (applyFetchOutcome s .rejected = (s, true)) ∧
    (r.body = none → applyFetchOutcome s (.resolved r) = (s, true)) ∧
    (r.body = some body → body.success = false →
      applyFetchOutcome s (.resolved r) = (s, false)) ∧
    (r.body = some body → body.success = true → body.data = none →
      applyFetchOutcome s (.resolved r) = (s, true)) := by
  refine ⟨rfl, ?_, ?_, ?_⟩
  · intro h
    simp [applyFetchOutcome, h]
  · intro h hs
    simp [applyFetchOutcome, h, hs]
  · intro h hs hd
    simp [applyFetchOutcome, h, hs, hd]

/-- Concrete log entry used by the inventory-log counterexamples. -/
def logW : InventoryLog :=
  ⟨1, 7, "Widget", "W1", "sale", 5, 50, 45, "INV-1", "Sold", "good",
   "2025-01-01"⟩

/-- Concrete pagination used by the inventory-log counterexamples. -/
def pageW : Pagination := ⟨1, 3, 41, 20⟩

/-- Non-2xx (HTTP 500) response whose JSON body nevertheless carries
`success: true` and a log list. -/
def resp500 : LogsResponse := ⟨"7", 1, 500, some ⟨true, some ⟨some [logW], some pageW⟩⟩⟩

/-- Viewer state with product 7 selected and no logs loaded yet. -/
def stateEmpty : ViewerState := ⟨"7", [], defaultPagination⟩

/-- C7 counterexample: a non-2xx response does NOT leave the state
unchanged — `fetchLogs` never reads `response.status`/`response.ok`, so an
HTTP 500 whose body parses with `success: true` is committed exactly like a
success, replacing the previous logs. -/
theorem fetchLogs_non2xx_counterexample :
    resp500.status = 500 ∧
    (applyFetchOutcome stateEmpty (.resolved resp500)).1.logs = [logW] ∧
    (applyFetchOutcome stateEmpty (.resolved resp500)).1.logs ≠
      stateEmpty.logs := by
  refine ⟨rfl, rfl, by decide⟩

/-- Response whose body is not valid JSON. -/
def respBadBody : LogsResponse := ⟨"7", 1, 200, none⟩

/-- Witness for C7 (amended): a parse failure leaves the state unchanged and
fires the toast. -/
theorem fetchLogs_error_atomicity_amended_witness :
    applyFetchOutcome stateEmpty (.resolved respBadBody) = (stateEmpty, true) :=
  (fetchLogs_error_atomicity_amended stateEmpty respBadBody ⟨false, none⟩).2.1 rfl

/-- Stale log entry carried by the superseded request's response. -/
def logStale : InventoryLog :=
  ⟨2, 1, "Gadget", "G1", "purchase", 5, 10, 15, "PO-1", "Restock", "good",
   "2025-01-02"⟩

/-- Successful response for the current selection (product "7"). -/
def respNew : LogsResponse :=
  ⟨"7", 1, 200, some ⟨true, some ⟨some [logW], some pageW⟩⟩⟩

/-- Successful response of the superseded request (product "1"), arriving
after the newer one. -/
def respStale : LogsResponse :=
  ⟨"1", 1, 200, some ⟨true, some ⟨some [logStale], some defaultPagination⟩⟩⟩

/-- C9: `fetchLogs` performs no request fencing, so the claimed guard does
not exist in the code. With product "7" selected, the newer response (for
product "7") commits first, then the stale response originating from the
superseded selection "1" arrives and overwrites the newer state even though
its originating productId no longer matches the current selection. -/
theorem staleResponse_race :
    ((applyFetchOutcome stateEmpty (.resolved respNew)).1.logs = [logW]) ∧
    (((applyFetchOutcome (applyFetchOutcome stateEmpty
        (.resolved respNew)).1 (.resolved respStale)).1.selectedProductId
        = "7") ∧
     respStale.productId ≠ "7" ∧
     (applyFetchOutcome (applyFetchOutcome stateEmpty
        (.resolved respNew)).1 (.resolved respStale)).1.logs = [logStale] ∧
     (applyFetchOutcome (applyFetchOutcome stateEmpty
        (.resolved respNew)).1 (.resolved respStale)).1.logs ≠ [logW]) := by
  refine ⟨rfl, rfl, by decide, rfl, by decide⟩

/-- Signed delta of an inventory log entry (`InventoryLogs.tsx` line 295):
`const quantityChange = log.balanceAfter - log.balanceBefore`. -/
def quantityChange (log : InventoryLog) : ℤ :=
  log.balanceAfter - log.balanceBefore

/-- Positivity test (`InventoryLogs.tsx` line 296):
`const isPositive = quantityChange >= 0`. -/
def isPositive (log : InventoryLog) : Bool :=
  decide (quantityChange log ≥ 0)

/-- JavaScript rendering of an integral number in template position. -/
def jsIntString (n : ℤ) : String :=
  if n < 0 then "-" ++ Nat.repr n.natAbs else Nat.repr n.natAbs

/-- Delta text rendered at `InventoryLogs.tsx` line 334:
`{isPositive ? '+' : ''}{quantityChange}`. -/
def deltaString (log : InventoryLog) : String :=
  (if isPositive log then "+" else "") ++ jsIntString (quantityChange log)

/-- Direction indicator icon chosen at lines 329-333. -/
inductive TrendDirection where
  | up
  | down
deriving DecidableEq

/-- TrendingUp when `isPositive`, TrendingDown otherwise. -/
def deltaDirection (log : InventoryLog) : TrendDirection :=
  if isPositive log then TrendDirection.up else TrendDirection.down

/-- Color class chosen at lines 326-328. -/
def deltaColorClass (log : InventoryLog) : String :=
  if isPositive log then "text-green-600 dark:text-green-400"
  else "text-red-600 dark:text-red-400"

/-- C8: the displayed delta is balanceAfter − balanceBefore; a negative
delta renders with its minus sign and the downward indicator, a positive
delta renders with a "+" prefix and the upward indicator; the entry's
`quantity` field is never consulted by this display. -/
theorem deltaRender_correct (log : InventoryLog) :
    (quantityChange log = log.balanceAfter - log.balanceBefore) ∧
    (quantityChange log < 0 →
      deltaString log = "-" ++ Nat.repr (quantityChange log).natAbs ∧
      deltaDirection log = TrendDirection.down) ∧
    (0 < quantityChange log →
      deltaString log = "+" ++ Nat.repr (quantityChange log).natAbs ∧
      deltaDirection log = TrendDirection.up) ∧
    (∀ q : ℤ,
      deltaString ⟨log.id, log.productId, log.productName, log.productSku,
        log.type, q, log.balanceBefore, log.balanceAfter, log.reference,
        log.reason, log.condition, log.createdAt⟩ = deltaString log ∧
      deltaDirection ⟨log.id, log.productId, log.productName, log.productSku,
        log.type, q, log.balanceBefore, log.balanceAfter, log.reference,
        log.reason, log.condition, log.createdAt⟩ = deltaDirection log) := by
  refine ⟨rfl, ?_, ?_, fun q => ⟨rfl, rfl⟩⟩
  · intro h
    have hp : isPositive log = false := by
      simp only [isPositive, decide_eq_false_iff_not]
      omega
    exact ⟨by simp [deltaString, hp, jsIntString, h], by simp [deltaDirection, hp]⟩
  · intro h
    have hp : isPositive log = true := by
      simp only [isPositive, decide_eq_true_eq]
      omega
    have hn : ¬ quantityChange log < 0 := by omega
    exact ⟨by simp [deltaString, hp, jsIntString, hn], by simp [deltaDirection, hp]⟩

/-- Log entry of the claim's scenario: balanceBefore=50, balanceAfter=30. -/
def logDown : InventoryLog :=
  ⟨3, 7, "Widget", "W1", "sale", 20, 50, 30, "INV-2", "Sold", "good",
   "2025-01-03"⟩

/-- Witness for C8: the 50 → 30 entry renders "-20" with the downward
indicator. -/
theorem deltaRender_correct_witness :
    deltaString logDown = "-20" ∧ deltaDirection logDown = TrendDirection.down :=
  (deltaRender_correct logDown).2.1 (by decide)

/-- C10: an entry whose balanceAfter equals balanceBefore has delta 0, the
positivity test (delta >= 0) classifies it as positive, and it renders "+0"
with the upward indicator and the green color class. -/
theorem zeroDelta_positive (log : InventoryLog)
    (h : log.balanceAfter = log.balanceBefore) :
    isPositive log = true ∧
    deltaString log = "+0" ∧
    deltaDirection log = TrendDirection.up ∧
    deltaColorClass log = "text-green-600 dark:text-green-400" := by
  have hq : quantityChange log = 0 := by
    simp [quantityChange, h]
  have hp : isPositive log = true := by
    simp [isPositive, hq]
  refine ⟨hp, ?_, by simp [deltaDirection, hp], by simp [deltaColorClass, hp]⟩
  simp [deltaString, hp, jsIntString, hq]
  decide

/-- Log entry with equal balances (12 → 12). -/
def logFlat : InventoryLog :=
  ⟨4, 7, "Widget", "W1", "adjustment", 0, 12, 12, "ADJ-1", "Audit", "good",
   "2025-01-04"⟩

/-- Witness for C10: the 12 → 12 entry renders "+0" with the upward
indicator. -/
theorem zeroDelta_positive_witness :
    isPositive logFlat = true ∧
    deltaString logFlat = "+0" ∧
    deltaDirection logFlat = TrendDirection.up ∧
    deltaColorClass logFlat = "text-green-600 dark:text-green-400" :=
  zeroDelta_positive logFlat rfl
